import Mathlib

/-!
Verification of the streaming text-to-speech adapter `PlayHTTTS`
(voiceagent/playht.py) against its specification.

The adapter is embedded shallowly:

* Machine state (`PlayHTTTS`) carries the configuration fields set by
  `__init__` together with the mutable fields `_input_buffer` and
  `_is_input_done`.
* Bytes are natural numbers; a byte string is a `List Nat`.
* The remote service is a parameter (`ServiceBehavior`) describing what the
  POST to the convert endpoint and the streaming GET do: any status code,
  any body, and exceptions at every network interaction point.
* `uuid.uuid4().hex` is a parameter: the list of characters of the hex
  digest (in CPython, 32 lowercase hexadecimal characters).
* The async generator `synthesize_stream` is embedded as the finite list of
  units it yields when iterated, paired with the HTTP requests it issues.
* The `while` loop of `__aiter__` is embedded by its guard, a single-pass
  body step, and a fuelled iteration of that step.
-/

/-- Byte strings are lists of naturals (each conceptually in 0..255; the
claims never depend on the bound). -/
abbrev Bytes := List Nat

/-- Embedding of `livekit.rtc.AudioFrame` as used by the adapter: the four
keyword arguments the adapter passes to its constructor. -/
structure AudioFrame where
  samples_per_channel : Nat
  sample_rate : Nat
  num_channels : Nat
  data : Bytes
deriving Repr, DecidableEq

/-- Embedding of `livekit.agents.tts.SynthesizedAudio` as used by the
adapter: an audio frame plus the correlation id (`request_id`). -/
structure SynthesizedAudio where
  frame : AudioFrame
  request_id : String
deriving Repr, DecidableEq

/-- State of a `PlayHTTTS` instance: the configuration fields assigned in
`__init__` plus the two mutable fields `_input_buffer` and
`_is_input_done`. -/
structure PlayHTTTS where
  api_url : String
  api_key : String
  user_id : String
  voice : String
  voice_engine : String
  sample_rate : Nat
  num_channels : Nat
  input_buffer : List String
  is_input_done : Bool
deriving Repr, DecidableEq

/-- `PlayHTTTS.__init__(api_key, user_id, voice="Emma")`: the state of a
freshly constructed adapter. -/
def PlayHTTTS.init (api_key user_id voice : String) : PlayHTTTS :=
  { api_url := "https://play.ht/api/v1"
    api_key := api_key
    user_id := user_id
    voice := voice
    voice_engine := "Play3.0-mini-http"
    sample_rate := 44100
    num_channels := 1
    input_buffer := []
    is_input_done := false }

/-- `push_text(text)`: append the fragment to `_input_buffer`. -/
def PlayHTTTS.push_text (self : PlayHTTTS) (text : String) : PlayHTTTS :=
  { self with input_buffer := self.input_buffer ++ [text] }

/-- `end_input()`: set `_is_input_done`. -/
def PlayHTTTS.end_input (self : PlayHTTTS) : PlayHTTTS :=
  { self with is_input_done := true }

/-- Result of `response.json()` on the POST response: either the call
raises (body is not valid JSON), or it returns an object abstracted to
whether it contains a `"transcriptionId"` key and, if so, its value. -/
inductive JsonBody where
  | raises : JsonBody
  | fields (hasTranscriptionId : Bool) (transcriptionId : String) : JsonBody
deriving Repr, DecidableEq

/-- Behavior of `client.post(...)` on the convert endpoint: either the call
raises, or it returns a response with a status code, a text body, and a
JSON-parse result. -/
inductive PostOutcome where
  | raises : PostOutcome
  | response (status_code : Nat) (text : String) (json : JsonBody) : PostOutcome
deriving Repr, DecidableEq

/-- Behavior of the streaming GET on the stream endpoint: opening the
request may raise; otherwise `aiter_bytes()` delivers the listed chunks in
order and then either raises or closes normally. -/
structure StreamOutcome where
  openRaises : Bool
  chunks : List Bytes
  raisesAfter : Bool
deriving Repr, DecidableEq

/-- Combined behavior of the remote service for one synthesis call. -/
structure ServiceBehavior where
  post : PostOutcome
  stream : StreamOutcome
deriving Repr, DecidableEq

/-- The JSON payload built at the top of `synthesize_stream`. -/
structure ConvertPayload where
  voice : String
  content : String
  format : String
  voice_engine : String
deriving Repr, DecidableEq

/-- An outbound HTTP request issued by the adapter. -/
inductive Request where
  | post (url : String) (payload : ConvertPayload) : Request
  | getStream (url : String) : Request
deriving Repr, DecidableEq

/-- The payload of the POST: voice, content, `"mp3"`, and the engine. -/
def PlayHTTTS.convertPayload (self : PlayHTTTS) (text : String) : ConvertPayload :=
  { voice := self.voice
    content := text
    format := "mp3"
    voice_engine := self.voice_engine }

/-- The silence sentinel frame built on every error branch of
`synthesize_stream`: 80 samples per channel, the instance sample rate and
channel count, and 160 zero bytes. -/
def PlayHTTTS.sentinelFrame (self : PlayHTTTS) : AudioFrame :=
  { samples_per_channel := 80
    sample_rate := self.sample_rate
    num_channels := self.num_channels
    data := List.replicate 160 0 }

/-- The error correlation id built on every error branch:
`f"error-\x7buuid.uuid4().hex[:8]\x7d"`, with the hex digest given as its
character list. -/
def errRequestId (uuid_hex : List Char) : String :=
  String.mk ("error-".data ++ uuid_hex.take 8)

/-- The silence sentinel unit yielded on every error branch of
`synthesize_stream`. -/
def PlayHTTTS.sentinelUnit (self : PlayHTTTS) (uuid_hex : List Char) : SynthesizedAudio :=
  { frame := self.sentinelFrame
    request_id := errRequestId uuid_hex }

/-- The unit yielded for one received byte chunk on the success path:
`samples_per_channel = len(chunk) // (2 * self.num_channels)` and the
chunk's bytes verbatim as frame data, correlated by the transcription id. -/
def PlayHTTTS.chunkUnit (self : PlayHTTTS) (transcription_id : String)
    (chunk : Bytes) : SynthesizedAudio :=
  { frame :=
      { samples_per_channel := chunk.length / (2 * self.num_channels)
        sample_rate := self.sample_rate
        num_channels := self.num_channels
        data := chunk }
    request_id := transcription_id }

/-- Iterating the async generator `synthesize_stream(text)` under service
behavior `b`: the HTTP requests it issues and the units it yields, in
order.  Mirrors the source: POST to convert; on non-200 status yield one
sentinel and return; on a 200 body without `"transcriptionId"` yield one
sentinel and return; otherwise open the streaming GET and yield one unit
per received chunk; any exception caught by the surrounding `try` yields
one sentinel, ending the generator. -/
def PlayHTTTS.synthesize_stream (self : PlayHTTTS) (text : String)
    (uuid_hex : List Char) (b : ServiceBehavior) :
    List Request × List SynthesizedAudio :=
  let postReq := Request.post (self.api_url ++ "/convert") (self.convertPayload text)
  match b.post with
  | PostOutcome.raises => ([postReq], [self.sentinelUnit uuid_hex])
  | PostOutcome.response status_code _text json =>
    if status_code ≠ 200 then
      ([postReq], [self.sentinelUnit uuid_hex])
    else
      match json with
      | JsonBody.raises => ([postReq], [self.sentinelUnit uuid_hex])
      | JsonBody.fields hasTid tid =>
        if hasTid then
          let getReq := Request.getStream (self.api_url ++ "/stream/" ++ tid)
          if b.stream.openRaises then
            ([postReq, getReq], [self.sentinelUnit uuid_hex])
          else
            ([postReq, getReq],
              b.stream.chunks.map (self.chunkUnit tid) ++
                (if b.stream.raisesAfter then [self.sentinelUnit uuid_hex] else []))
        else
          ([postReq], [self.sentinelUnit uuid_hex])

/-- Python exceptions that escape a method of the adapter. -/
inductive PyError where
  | typeError (msg : String) : PyError
deriving Repr, DecidableEq

/-- `flush()`.  When `_input_buffer` is empty the body is skipped entirely.
When it is non-empty, the source computes the joined paragraph and then
executes `await self.synthesize_stream(paragraph)`; `synthesize_stream` is
an `async def` containing `yield`, hence an asynchronous generator
function, so the call returns an async-generator object, which is not
awaitable: the `await` raises `TypeError` immediately.  The generator body
never runs, so no request is issued, and the line clearing `_input_buffer`
is never reached, so the state is unchanged.  Returns the raised exception
(if any), the state after the call, and the requests issued. -/
def PlayHTTTS.flush (self : PlayHTTTS) :
    Option PyError × PlayHTTTS × List Request :=
  if self.input_buffer.isEmpty then
    (none, self, [])
  else
    (some (PyError.typeError "object async_generator is not awaitable"),
      self, [])

/-- Guard of the `while` loop in `__aiter__`:
`not self._is_input_done or self._input_buffer`. -/
def PlayHTTTS.loopGuard (self : PlayHTTTS) : Bool :=
  !self.is_input_done || !self.input_buffer.isEmpty

/-- One pass through the body of the `while` loop in `__aiter__`, under
service behavior `b`.  Returns the state after the pass, the requests
issued, the units yielded to the consumer, and the number of suspension
points reached during the pass (awaits of the inner generator plus yields
to the consumer).  When `_input_buffer` is empty the body's single `if` is
skipped: no request, no unit, no suspension point, state unchanged.
Otherwise the joined buffer is synthesized, every resulting unit is
yielded (one await before each unit plus one final await that observes the
generator's end), and the buffer is cleared. -/
def PlayHTTTS.aiterPass (self : PlayHTTTS) (uuid_hex : List Char)
    (b : ServiceBehavior) : PlayHTTTS × List Request × List SynthesizedAudio × Nat :=
  if self.input_buffer.isEmpty then
    (self, [], [], 0)
  else
    let text := String.intercalate " " self.input_buffer
    let (reqs, units) := self.synthesize_stream text uuid_hex b
    ({ self with input_buffer := [] }, reqs, units, 2 * units.length + 1)

/-- The units yielded by the `while` loop of `__aiter__`, run for at most
`fuel` passes, with `bs n` the service behavior seen by the n-th pass.
The loop exits as soon as its guard is false. -/
def PlayHTTTS.aiterRun (uuid_hex : List Char) :
    Nat → PlayHTTTS → (Nat → ServiceBehavior) → List SynthesizedAudio
  | 0, _, _ => []
  | Nat.succ fuel, self, bs =>
    if self.loopGuard then
      let r := self.aiterPass uuid_hex (bs 0)
      r.2.2.1 ++ PlayHTTTS.aiterRun uuid_hex fuel r.1 (fun n => bs (n + 1))
    else []

/-- A lowercase hexadecimal digit, as produced by `uuid.uuid4().hex`. -/
def isLowerHex (c : Char) : Bool :=
  c.isDigit || (Char.ofNat 97 ≤ c && c ≤ Char.ofNat 102)

/-- Decides whether a correlation id matches the pattern
`error-[0-9a-f]\x7b8\x7d`. -/
def matchesErrorPattern (s : String) : Bool :=
  s.data.take 6 == "error-".data &&
    (s.data.drop 6).length == 8 &&
    (s.data.drop 6).all isLowerHex

/-- Claim C9: for every adapter state with an empty pending buffer,
calling `flush()` issues zero network calls and leaves the entire adapter
state unchanged. -/
theorem flush_empty_buffer_noop (self : PlayHTTTS)
    (h : self.input_buffer = []) :
    self.flush = (none, self, []) := by
  simp [PlayHTTTS.flush, h]

/-- Witness for C9 at a freshly constructed adapter. -/
theorem flush_empty_buffer_noop_witness :
    (PlayHTTTS.init "key" "user" "Emma").flush =
      (none, PlayHTTTS.init "key" "user" "Emma", []) :=
  flush_empty_buffer_noop (PlayHTTTS.init "key" "user" "Emma") rfl

/-- Claim C2 fails on the code: `flush()` on a non-empty buffer raises
`TypeError`, because it awaits the async-generator object returned by
`synthesize_stream` instead of iterating it.  This theorem evaluates the
code at a concrete failing input: after pushing one fragment, `flush`
propagates an exception to the caller. -/
theorem flush_nonempty_raises :
    (((PlayHTTTS.init "key" "user" "Emma").push_text "Hello").flush).1 =
      some (PyError.typeError "object async_generator is not awaitable") := by
  rfl

/-- Claim C3 fails on the code: pushing `["Hello", "world"]` and flushing
sends zero POST requests (the request list is empty) and raises, because
the generator body that would issue the POST never runs. -/
theorem flush_hello_world_sends_no_request :
    (((PlayHTTTS.init "key" "user" "Emma").push_text "Hello").push_text
        "world").flush =
      (some (PyError.typeError "object async_generator is not awaitable"),
        ((PlayHTTTS.init "key" "user" "Emma").push_text "Hello").push_text
          "world",
        []) := by
  rfl

/-- Claim C4 fails on the code: with buffer `["Hello", "world"]`, `flush`
raises before reaching the line that clears `_input_buffer`, so there is
no successful dispatch and the buffer is still `["Hello", "world"]`
afterwards. -/
theorem flush_does_not_clear_buffer :
    ((((PlayHTTTS.init "key" "user" "Emma").push_text "Hello").push_text
        "world").flush.2.1).input_buffer = ["Hello", "world"] ∧
      ((((PlayHTTTS.init "key" "user" "Emma").push_text "Hello").push_text
        "world").flush.1).isSome = true := by
  exact ⟨rfl, rfl⟩

/-- Claim C7: once `end_input()` has been called and the pending buffer is
empty, the `while` guard of `__aiter__` is false, the loop exits, and no
further unit is yielded for any fuel and any service behavior. -/
theorem aiter_terminates_when_done_and_empty (self : PlayHTTTS)
    (hdone : self.is_input_done = true) (hbuf : self.input_buffer = []) :
    self.loopGuard = false ∧
      ∀ (uuid_hex : List Char) (fuel : Nat) (bs : Nat → ServiceBehavior),
        PlayHTTTS.aiterRun uuid_hex fuel self bs = [] := by
  have hg : self.loopGuard = false := by
    simp [PlayHTTTS.loopGuard, hdone, hbuf]
  refine ⟨hg, fun u fuel bs => ?_⟩
  cases fuel with
  | zero => rfl
  | succ n => simp [PlayHTTTS.aiterRun, hg]

/-- Witness for C7: a fresh adapter after `end_input()`, with fuel 5. -/
theorem aiter_terminates_when_done_and_empty_witness :
    ((PlayHTTTS.init "key" "user" "Emma").end_input).loopGuard = false ∧
      PlayHTTTS.aiterRun "abcd1234".data 5
        ((PlayHTTTS.init "key" "user" "Emma").end_input)
        (fun _ => ServiceBehavior.mk PostOutcome.raises
          (StreamOutcome.mk false [] false)) = [] := by
  have h := aiter_terminates_when_done_and_empty
    ((PlayHTTTS.init "key" "user" "Emma").end_input) rfl rfl
  exact ⟨h.1, h.2 "abcd1234".data 5 _⟩

/-- Claim C8 fails on the code: with an empty buffer and the input-done
flag unset, the loop guard is true yet a pass through the loop body
reaches zero suspension points, yields nothing, issues no request, and
leaves the state unchanged — the loop re-tests its condition forever
without ever yielding control (a busy spin). -/
theorem aiter_pass_busy_spins (self : PlayHTTTS)
    (hbuf : self.input_buffer = []) (hdone : self.is_input_done = false) :
    self.loopGuard = true ∧
      ∀ (uuid_hex : List Char) (b : ServiceBehavior),
        self.aiterPass uuid_hex b = (self, [], [], 0) := by
  constructor
  · simp [PlayHTTTS.loopGuard, hdone]
  · intro u b
    simp [PlayHTTTS.aiterPass, hbuf]

/-- Witness for C8 at a freshly constructed adapter. -/
theorem aiter_pass_busy_spins_witness :
    (PlayHTTTS.init "key" "user" "Emma").loopGuard = true ∧
      (PlayHTTTS.init "key" "user" "Emma").aiterPass "abcd1234".data
        (ServiceBehavior.mk PostOutcome.raises
          (StreamOutcome.mk false [] false)) =
        (PlayHTTTS.init "key" "user" "Emma", [], [], 0) := by
  have h := aiter_pass_busy_spins (PlayHTTTS.init "key" "user" "Emma") rfl rfl
  exact ⟨h.1, h.2 "abcd1234".data _⟩

/-- Helper: when the uuid hex digest has the shape CPython guarantees
(32 lowercase hexadecimal characters), the error correlation id matches
the pattern `error-[0-9a-f]\x7b8\x7d`. -/
theorem errRequestId_matchesErrorPattern (uuid_hex : List Char)
    (hlen : uuid_hex.length = 32) (hhex : uuid_hex.all isLowerHex = true) :
    matchesErrorPattern (errRequestId uuid_hex) = true := by
  have h6 : ("error-".data : List Char).length = 6 := rfl
  have htake : (("error-".data ++ uuid_hex.take 8).take 6) = "error-".data :=
    List.take_left' h6
  have hdrop : (("error-".data ++ uuid_hex.take 8).drop 6) = uuid_hex.take 8 :=
    List.drop_left' h6
  have hlen8 : (uuid_hex.take 8).length = 8 := by
    rw [List.length_take, hlen]
    rfl
  have hall : (uuid_hex.take 8).all isLowerHex = true := by
    rw [List.all_eq_true] at hhex ⊢
    exact fun c hc => hhex c (List.take_subset 8 uuid_hex hc)
  simp [matchesErrorPattern, errRequestId, htake, hdrop, hlen8, hall]

/-- Claim C1: when the POST returns a non-2xx status, or a 200 whose body
lacks the `"transcriptionId"` field, `synthesize_stream` yields exactly one
unit — the silence sentinel with 80 samples per channel, sample rate
44100, 1 channel, 160 zero bytes, and a correlation id matching
`error-[0-9a-f]\x7b8\x7d` — and then terminates. -/
theorem synthesize_error_sentinel
    (api_key user_id voice text rtext tid : String)
    (uuid_hex : List Char) (b : ServiceBehavior) (status_code : Nat)
    (json : JsonBody)
    (hpost : b.post = PostOutcome.response status_code rtext json)
    (herr : ¬ (200 ≤ status_code ∧ status_code < 300) ∨
      (status_code = 200 ∧ json = JsonBody.fields false tid))
    (hlen : uuid_hex.length = 32) (hhex : uuid_hex.all isLowerHex = true) :
    ((PlayHTTTS.init api_key user_id voice).synthesize_stream text uuid_hex
        b).2 =
      [(PlayHTTTS.init api_key user_id voice).sentinelUnit uuid_hex] ∧
    ((PlayHTTTS.init api_key user_id voice).sentinelUnit
        uuid_hex).frame.samples_per_channel = 80 ∧
    ((PlayHTTTS.init api_key user_id voice).sentinelUnit
        uuid_hex).frame.sample_rate = 44100 ∧
    ((PlayHTTTS.init api_key user_id voice).sentinelUnit
        uuid_hex).frame.num_channels = 1 ∧
    ((PlayHTTTS.init api_key user_id voice).sentinelUnit
        uuid_hex).frame.data = List.replicate 160 0 ∧
    matchesErrorPattern
      ((PlayHTTTS.init api_key user_id voice).sentinelUnit
        uuid_hex).request_id = true := by
  refine ⟨?_, rfl, rfl, rfl, rfl,
    errRequestId_matchesErrorPattern uuid_hex hlen hhex⟩
  rcases herr with h | ⟨h200, hj⟩
  · have hne : status_code ≠ 200 := by
      rintro rfl
      exact h ⟨Nat.le_refl 200, by norm_num⟩
    simp [PlayHTTTS.synthesize_stream, hpost, hne]
  · subst h200
    subst hj
    simp [PlayHTTTS.synthesize_stream, hpost]

/-- Witness for C1: a concrete 500 response, with a concrete 32-character
uuid hex digest. -/
theorem synthesize_error_sentinel_witness :
    (((PlayHTTTS.init "key" "user" "Emma").synthesize_stream "hi"
        "0123456789abcdef0123456789abcdef".data
        (ServiceBehavior.mk
          (PostOutcome.response 500 "oops" (JsonBody.fields true "t"))
          (StreamOutcome.mk false [] false))).2).length = 1 ∧
    matchesErrorPattern
      ((PlayHTTTS.init "key" "user" "Emma").sentinelUnit
        "0123456789abcdef0123456789abcdef".data).request_id = true := by
  have h := synthesize_error_sentinel "key" "user" "Emma" "hi" "oops" "t"
    "0123456789abcdef0123456789abcdef".data
    (ServiceBehavior.mk
      (PostOutcome.response 500 "oops" (JsonBody.fields true "t"))
      (StreamOutcome.mk false [] false))
    500 (JsonBody.fields true "t") rfl (Or.inl (by decide)) (by decide)
    (by decide)
  refine ⟨?_, h.2.2.2.2.2⟩
  rw [h.1]
  rfl

/-- Claim C6: on a 200 response carrying the transcription id, the adapter
issues the POST followed by a streaming GET to `stream/\x7bid\x7d`, and
yields exactly one unit per received byte chunk, in arrival order, every
unit correlated by the transcription id; the sequence ends when the remote
stream closes. -/
theorem synthesize_success_path (self : PlayHTTTS) (text rtext tid : String)
    (uuid_hex : List Char) (b : ServiceBehavior)
    (hpost : b.post = PostOutcome.response 200 rtext (JsonBody.fields true tid))
    (hopen : b.stream.openRaises = false)
    (hafter : b.stream.raisesAfter = false) :
    self.synthesize_stream text uuid_hex b =
      ([Request.post (self.api_url ++ "/convert") (self.convertPayload text),
        Request.getStream (self.api_url ++ "/stream/" ++ tid)],
        b.stream.chunks.map (self.chunkUnit tid)) ∧
      ∀ u ∈ (self.synthesize_stream text uuid_hex b).2, u.request_id = tid := by
  have h1 : self.synthesize_stream text uuid_hex b =
      ([Request.post (self.api_url ++ "/convert") (self.convertPayload text),
        Request.getStream (self.api_url ++ "/stream/" ++ tid)],
        b.stream.chunks.map (self.chunkUnit tid)) := by
    simp [PlayHTTTS.synthesize_stream, hpost, hopen, hafter]
  refine ⟨h1, ?_⟩
  rw [h1]
  intro u hu
  rcases List.mem_map.mp hu with ⟨c, _, rfl⟩
  rfl

/-- Witness for C6: a concrete success behavior delivering two chunks. -/
theorem synthesize_success_path_witness :
    (PlayHTTTS.init "key" "user" "Emma").synthesize_stream "hi" "ab".data
      (ServiceBehavior.mk
        (PostOutcome.response 200 "" (JsonBody.fields true "tid1"))
        (StreamOutcome.mk false [[1, 2], [3, 4, 5]] false)) =
      ([Request.post "https://play.ht/api/v1/convert"
          ((PlayHTTTS.init "key" "user" "Emma").convertPayload "hi"),
        Request.getStream "https://play.ht/api/v1/stream/tid1"],
        [(PlayHTTTS.init "key" "user" "Emma").chunkUnit "tid1" [1, 2],
         (PlayHTTTS.init "key" "user" "Emma").chunkUnit "tid1" [3, 4, 5]]) := by
  have h := synthesize_success_path (PlayHTTTS.init "key" "user" "Emma")
    "hi" "" "tid1" "ab".data
    (ServiceBehavior.mk
      (PostOutcome.response 200 "" (JsonBody.fields true "tid1"))
      (StreamOutcome.mk false [[1, 2], [3, 4, 5]] false)) rfl rfl rfl
  rw [h.1]
  rfl

/-- Claim C10: on the success path every emitted unit carries its chunk's
bytes verbatim as frame data, with `samples_per_channel` the floor of
`length / 2`; for an odd-length chunk the data length exceeds
`2 * samples_per_channel * num_channels` by exactly one byte. -/
theorem chunk_data_verbatim (api_key user_id voice text rtext tid : String)
    (uuid_hex : List Char) (b : ServiceBehavior)
    (hpost : b.post = PostOutcome.response 200 rtext (JsonBody.fields true tid))
    (hopen : b.stream.openRaises = false)
    (hafter : b.stream.raisesAfter = false) :
    ((PlayHTTTS.init api_key user_id voice).synthesize_stream text uuid_hex
        b).2 =
      b.stream.chunks.map
        ((PlayHTTTS.init api_key user_id voice).chunkUnit tid) ∧
    ∀ chunk : Bytes,
      ((PlayHTTTS.init api_key user_id voice).chunkUnit tid
          chunk).frame.data = chunk ∧
      ((PlayHTTTS.init api_key user_id voice).chunkUnit tid
          chunk).frame.samples_per_channel = chunk.length / 2 ∧
      (chunk.length % 2 = 1 →
        chunk.length =
          2 * ((PlayHTTTS.init api_key user_id voice).chunkUnit tid
              chunk).frame.samples_per_channel *
            (PlayHTTTS.init api_key user_id voice).num_channels + 1) := by
  constructor
  · simp [PlayHTTTS.synthesize_stream, hpost, hopen, hafter]
  · intro chunk
    refine ⟨rfl, rfl, fun hodd => ?_⟩
    simp only [PlayHTTTS.chunkUnit, PlayHTTTS.init]
    omega

/-- Witness for C10: a concrete success behavior delivering one odd-length
chunk of five bytes. -/
theorem chunk_data_verbatim_witness :
    (((PlayHTTTS.init "key" "user" "Emma").synthesize_stream "hi" "ab".data
        (ServiceBehavior.mk
          (PostOutcome.response 200 "" (JsonBody.fields true "tid1"))
          (StreamOutcome.mk false [[9, 9, 9, 9, 9]] false))).2).map
        (fun u => u.frame.data) = [[9, 9, 9, 9, 9]] ∧
    ((PlayHTTTS.init "key" "user" "Emma").chunkUnit "tid1"
        [9, 9, 9, 9, 9]).frame.samples_per_channel = 2 ∧
    ([9, 9, 9, 9, 9] : Bytes).length = 2 * 2 * 1 + 1 := by
  have h := chunk_data_verbatim "key" "user" "Emma" "hi" "" "tid1" "ab".data
    (ServiceBehavior.mk
      (PostOutcome.response 200 "" (JsonBody.fields true "tid1"))
      (StreamOutcome.mk false [[9, 9, 9, 9, 9]] false)) rfl rfl rfl
  refine ⟨?_, (h.2 [9, 9, 9, 9, 9]).2.1, ?_⟩
  · rw [h.1]
    rfl
  · exact (h.2 [9, 9, 9, 9, 9]).2.2 (by decide)

/-- Counterexample to claim C5 as stated: on a success stream delivering
chunks of byte lengths [320, 4], the yielded units have
`samples_per_channel` [160, 2], not [80, 2] — `320 // (2 * 1) = 160`. -/
theorem chunk_slicing_counterexample :
    (((PlayHTTTS.init "key" "user" "Emma").synthesize_stream "hi" "ab".data
        (ServiceBehavior.mk
          (PostOutcome.response 200 "" (JsonBody.fields true "tid1"))
          (StreamOutcome.mk false
            [List.replicate 320 7, List.replicate 4 7] false))).2).map
        (fun u => u.frame.samples_per_channel) = [160, 2] ∧
    (((PlayHTTTS.init "key" "user" "Emma").synthesize_stream "hi" "ab".data
        (ServiceBehavior.mk
          (PostOutcome.response 200 "" (JsonBody.fields true "tid1"))
          (StreamOutcome.mk false
            [List.replicate 320 7, List.replicate 4 7] false))).2).map
        (fun u => u.frame.samples_per_channel) ≠ [80, 2] := by
  have hmap : (((PlayHTTTS.init "key" "user" "Emma").synthesize_stream "hi"
      "ab".data
      (ServiceBehavior.mk
        (PostOutcome.response 200 "" (JsonBody.fields true "tid1"))
        (StreamOutcome.mk false
          [List.replicate 320 7, List.replicate 4 7] false))).2) =
      [(PlayHTTTS.init "key" "user" "Emma").chunkUnit "tid1"
        (List.replicate 320 7),
       (PlayHTTTS.init "key" "user" "Emma").chunkUnit "tid1"
        (List.replicate 4 7)] := rfl
  have h : (((PlayHTTTS.init "key" "user" "Emma").synthesize_stream "hi"
      "ab".data
      (ServiceBehavior.mk
        (PostOutcome.response 200 "" (JsonBody.fields true "tid1"))
        (StreamOutcome.mk false
          [List.replicate 320 7, List.replicate 4 7] false))).2).map
      (fun u => u.frame.samples_per_channel) = [160, 2] := by
    rw [hmap]
    simp only [List.map_cons, List.map_nil, PlayHTTTS.chunkUnit,
      PlayHTTTS.init, List.length_replicate]
  refine ⟨h, ?_⟩
  rw [h]
  decide

/-- Claim C5 amended: on a success stream delivering two chunks of byte
lengths 320 and 4 respectively, the yielded units have
`samples_per_channel` 160 and 2 — each derived as
`byte_length / (2 * num_channels)` with one channel — and all share the
provider's returned session id as correlation id. -/
theorem chunk_slicing_amended (api_key user_id voice text rtext tid : String)
    (uuid_hex : List Char) (b : ServiceBehavior) (c1 c2 : Bytes)
    (hpost : b.post = PostOutcome.response 200 rtext (JsonBody.fields true tid))
    (hopen : b.stream.openRaises = false)
    (hafter : b.stream.raisesAfter = false)
    (hchunks : b.stream.chunks = [c1, c2])
    (h1 : c1.length = 320) (h2 : c2.length = 4) :
    (((PlayHTTTS.init api_key user_id voice).synthesize_stream text uuid_hex
        b).2).map (fun u => u.frame.samples_per_channel) = [160, 2] ∧
    (((PlayHTTTS.init api_key user_id voice).synthesize_stream text uuid_hex
        b).2).map (fun u => u.request_id) = [tid, tid] := by
  constructor
  · simp [PlayHTTTS.synthesize_stream, hpost, hopen, hafter, hchunks,
      PlayHTTTS.chunkUnit, PlayHTTTS.init, h1, h2]
  · simp [PlayHTTTS.synthesize_stream, hpost, hopen, hafter, hchunks,
      PlayHTTTS.chunkUnit]

/-- Witness for the amended C5 at concrete chunks of lengths 320 and 4. -/
theorem chunk_slicing_amended_witness :
    (((PlayHTTTS.init "key" "user" "Emma").synthesize_stream "hi" "ab".data
        (ServiceBehavior.mk
          (PostOutcome.response 200 "" (JsonBody.fields true "tid1"))
          (StreamOutcome.mk false
            [List.replicate 320 7, List.replicate 4 7] false))).2).map
        (fun u => u.frame.samples_per_channel) = [160, 2] ∧
    (((PlayHTTTS.init "key" "user" "Emma").synthesize_stream "hi" "ab".data
        (ServiceBehavior.mk
          (PostOutcome.response 200 "" (JsonBody.fields true "tid1"))
          (StreamOutcome.mk false
            [List.replicate 320 7, List.replicate 4 7] false))).2).map
        (fun u => u.request_id) = ["tid1", "tid1"] :=
  chunk_slicing_amended "key" "user" "Emma" "hi" "" "tid1" "ab".data
    (ServiceBehavior.mk
      (PostOutcome.response 200 "" (JsonBody.fields true "tid1"))
      (StreamOutcome.mk false
        [List.replicate 320 7, List.replicate 4 7] false))
    (List.replicate 320 7) (List.replicate 4 7) rfl rfl rfl rfl
    (by rw [List.length_replicate]) (by rw [List.length_replicate])

/-- Counterexample to claim C6 as stated: a 2xx status other than 200 does
not take the success path.  For a 201 response whose body carries the
transcription id, with a chunk waiting on the stream, the source's check
`response.status_code != 200` routes to the error branch: the only request
issued is the POST (no streaming GET is opened) and the single yielded
unit is the silence sentinel, whose correlation id is not the session
id. -/
theorem synthesize_201_yields_sentinel :
    (PlayHTTTS.init "key" "user" "Emma").synthesize_stream "hi" "ab".data
      (ServiceBehavior.mk
        (PostOutcome.response 201 "" (JsonBody.fields true "tid1"))
        (StreamOutcome.mk false [[1, 2]] false)) =
      ([Request.post "https://play.ht/api/v1/convert"
          ((PlayHTTTS.init "key" "user" "Emma").convertPayload "hi")],
        [(PlayHTTTS.init "key" "user" "Emma").sentinelUnit "ab".data]) ∧
    (((PlayHTTTS.init "key" "user" "Emma").synthesize_stream "hi" "ab".data
      (ServiceBehavior.mk
        (PostOutcome.response 201 "" (JsonBody.fields true "tid1"))
        (StreamOutcome.mk false [[1, 2]] false))).2).map
      (fun u => u.request_id) ≠ ["tid1"] := by
  refine ⟨rfl, ?_⟩
  decide
